import Mathlib

/-!
Shallow embedding of `zc_parking/coordinate_transformation.py` over the real
numbers, together with theorems settling the specification claims about the
SVY21 ↔ WGS84 coordinate transformation engine.

Python floats are modelled as real numbers; `numpy` trigonometric and power
functions become `Real.sin`, `Real.cos`, `Real.sqrt` and `Real.rpow`.
Division is total in Lean (`x / 0 = 0`); every fact proved below only divides
by quantities shown to be nonzero.
-/

namespace ZcParking

noncomputable section

open Real

/-- The `northing`/`easting` named tuple `SVY21Coordinates`. -/
structure SVY21Coordinates where
  northing : ℝ
  easting : ℝ

/-- The `latitude`/`longitude` named tuple `DegreeCoordinates`. -/
structure DegreeCoordinates where
  latitude : ℝ
  longitude : ℝ

/-- Class-level constant `SEMI_MAJOR_AXIS = 6378137.0`. -/
def SEMI_MAJOR_AXIS : ℝ := 6378137.0

/-- Class-level constant `FLATTENING = 1 / 298.257223563`. -/
def FLATTENING : ℝ := 1 / 298.257223563

/-- Class-level constant `ORIGIN_LATITUDE = 1.366666`. -/
def ORIGIN_LATITUDE : ℝ := 1.366666

/-- Class-level constant `ORIGIN_LONGITUDE = 103.833333`. -/
def ORIGIN_LONGITUDE : ℝ := 103.833333

/-- Class-level constant `FALSE_NORTHING = 38744.572`. -/
def FALSE_NORTHING : ℝ := 38744.572

/-- Class-level constant `FALSE_EASTING = 28001.642`. -/
def FALSE_EASTING : ℝ := 28001.642

/-- Class-level constant `SCALE_FACTOR = 1.0`. -/
def SCALE_FACTOR : ℝ := 1.0

/-- The dictionary `{1: a1, 2: a2, 3: a3, 4: a4}` returned by
`_calculate_equatorial_arc_consts` (keys 1..4 in insertion order). -/
structure ArcConsts where
  a1 : ℝ
  a2 : ℝ
  a3 : ℝ
  a4 : ℝ

/-- Instance state of `CoordinateTransformation`: the three attributes set in
`__init__` and never written again. -/
structure Engine where
  semi_minor_axis : ℝ
  eccentricity_squared : ℝ
  equatorial_arc_consts : ArcConsts

/-- Method `_calculate_eccentricity_squared`: `2f - f·f`. -/
def _calculate_eccentricity_squared : ℝ :=
  (2 * FLATTENING) - (FLATTENING * FLATTENING)

/-- Method `_calculate_equatorial_arc_consts`, as a function of the
`eccentricity_squared` attribute it reads. -/
def _calculate_equatorial_arc_consts (e_squared : ℝ) : ArcConsts :=
  let e_fourth := e_squared * e_squared
  let e_sixth := e_fourth * e_squared
  { a1 := 1 - (e_squared / 4) - (3 * e_fourth / 64) - (5 * e_sixth / 256)
    a2 := (3.0 / 8.0) * (e_squared + (e_fourth / 4) + (15 * e_sixth / 128))
    a3 := (15.0 / 256.0) * (e_fourth + (3 * e_sixth / 4))
    a4 := 35 * e_sixth / 3072 }

/-- Constructor `__init__`: computes and caches the three derived attributes. -/
def Engine.init : Engine :=
  let ecc := _calculate_eccentricity_squared
  { semi_minor_axis := SEMI_MAJOR_AXIS * (1 - FLATTENING)
    eccentricity_squared := ecc
    equatorial_arc_consts := _calculate_equatorial_arc_consts ecc }

/-- Method `degrees_to_radians` (`np.deg2rad`). -/
def degrees_to_radians (degrees : ℝ) : ℝ := degrees * π / 180

/-- Method `radians_to_degrees` (`np.rad2deg`). -/
def radians_to_degrees (radians : ℝ) : ℝ := radians * 180 / π

/-- Method `_calculate_meridian_distance`. -/
def _calculate_meridian_distance (E : Engine) (latitude_radians : ℝ) : ℝ :=
  SEMI_MAJOR_AXIS * (E.equatorial_arc_consts.a1 * latitude_radians
    - E.equatorial_arc_consts.a2 * Real.sin (2 * latitude_radians)
    + E.equatorial_arc_consts.a3 * Real.sin (4 * latitude_radians)
    - E.equatorial_arc_consts.a4 * Real.sin (6 * latitude_radians))

/-- Method `_compute_northing`. -/
def _compute_northing (E : Engine) (sin_latitude cos_latitude meridian_distance
    meridian_distance_origin delta_longitude : ℝ) : ℝ :=
  let coefficient_a2 := E.equatorial_arc_consts.a2
  let northing_term1 :=
    delta_longitude ^ 2 / 2 * meridian_distance_origin * sin_latitude
      * cos_latitude
  let northing_term2 :=
    delta_longitude ^ 4 / 24 * meridian_distance_origin * sin_latitude
      * cos_latitude ^ 3
      * (4 * coefficient_a2 ^ 2 + coefficient_a2 - sin_latitude ^ 2)
  let northing_term3 :=
    delta_longitude ^ 6 / 720 * meridian_distance_origin * sin_latitude
      * cos_latitude ^ 5
      * ((8 * coefficient_a2 ^ 3) * (11 - 24 * sin_latitude * sin_latitude)
        - (28 * coefficient_a2 ^ 2) * (1 - 6 * sin_latitude * sin_latitude)
        + coefficient_a2 ^ 2 * (1 - 32 * sin_latitude * sin_latitude)
        - coefficient_a2 * 2 * sin_latitude * sin_latitude
        + cos_latitude ^ 4)
  let northing_term4 :=
    delta_longitude ^ 8 / 40320 * meridian_distance_origin * sin_latitude
      * cos_latitude ^ 7
      * (1385 - 3111 * sin_latitude * sin_latitude + 543 * cos_latitude ^ 4
        - cos_latitude ^ 6)
  FALSE_NORTHING + SCALE_FACTOR * (meridian_distance
    - meridian_distance_origin + northing_term1 + northing_term2
    + northing_term3 + northing_term4)

/-- Method `_compute_easting`. -/
def _compute_easting (E : Engine) (sin_latitude cos_latitude meridian_distance
    delta_longitude : ℝ) : ℝ :=
  let coefficient_a2 := E.equatorial_arc_consts.a2
  let easting_term1 :=
    delta_longitude ^ 2 / 6 * cos_latitude
      * (coefficient_a2 - sin_latitude ^ 2)
  let easting_term2 :=
    delta_longitude ^ 4 / 120 * cos_latitude ^ 4
      * ((4 * coefficient_a2 ^ 3) * (1 - 6 * sin_latitude * sin_latitude)
        + coefficient_a2 ^ 2 * (1 + 8 * sin_latitude * sin_latitude)
        - coefficient_a2 * 2 * sin_latitude * sin_latitude
        + cos_latitude ^ 4)
  let easting_term3 :=
    delta_longitude ^ 6 / 5040 * cos_latitude ^ 6
      * (61 - 479 * sin_latitude * sin_latitude + 179 * cos_latitude ^ 4
        - cos_latitude ^ 6)
  FALSE_EASTING + SCALE_FACTOR * meridian_distance * delta_longitude
    * cos_latitude * (1 + easting_term1 + easting_term2 + easting_term3)

/-- Method `convert_lat_lon_to_svy21` (the forward transform). -/
def convert_lat_lon_to_svy21 (E : Engine) (latitude longitude : ℝ) :
    SVY21Coordinates :=
  let latitude_radians := degrees_to_radians latitude
  let longitude_radians := degrees_to_radians longitude
  let sin_latitude := Real.sin latitude_radians
  let cos_latitude := Real.cos latitude_radians
  let meridian_distance := _calculate_meridian_distance E latitude_radians
  let meridian_distance_origin :=
    _calculate_meridian_distance E (degrees_to_radians ORIGIN_LATITUDE)
  let delta_longitude := longitude_radians - degrees_to_radians ORIGIN_LONGITUDE
  { northing := _compute_northing E sin_latitude cos_latitude meridian_distance
      meridian_distance_origin delta_longitude
    easting := _compute_easting E sin_latitude cos_latitude meridian_distance
      delta_longitude }

/-- Method `_calculate_radius_of_curvature_prime_vertical`.  Note: the body
computes `a / sqrt(1 - e² · x)` where `x` is whatever argument is passed in;
its only caller passes `sin_latitude`, not a squared sine. -/
def _calculate_radius_of_curvature_prime_vertical (E : Engine)
    (sin_squared_latitude : ℝ) : ℝ :=
  let poly := 1 - E.eccentricity_squared * sin_squared_latitude
  SEMI_MAJOR_AXIS / Real.sqrt poly

/-- Method `_calculate_radius_of_curvature`.  Note: the body applies `np.sin`
to its argument, and its callers already pass `np.sin(latitude_radians)`. -/
def _calculate_radius_of_curvature (E : Engine) (sin_squared_latitude : ℝ) :
    ℝ :=
  let num := SEMI_MAJOR_AXIS * (1 - E.eccentricity_squared)
  let denom :=
    (1 - E.eccentricity_squared * Real.sin sin_squared_latitude)
      ^ ((3.0 : ℝ) / 2.0)
  num / denom

/-- The transverse radius of curvature exactly as the specification words it,
`ν(φ) = a/√(1 − e²·sin²φ)`, written down for comparison with the source's
`_calculate_radius_of_curvature_prime_vertical`, which is fed `sin φ`
(not `sin²φ`) by its only caller. -/
def nu_spec (φ : ℝ) : ℝ :=
  SEMI_MAJOR_AXIS
    / Real.sqrt (1 - Engine.init.eccentricity_squared * Real.sin φ ^ 2)

/-- One pass of the `for _ in range(5)` loop body in
`_calculate_latitude_from_northing`: maps the current `latitude_radians`
iterate to the next one. -/
def latitude_iteration_step (E : Engine) (northings latitude_radians : ℝ) :
    ℝ :=
  let coefficient_a2 := E.equatorial_arc_consts.a2
  let sin_latitude := Real.sin latitude_radians
  let radius_of_curvature_prime_vertical :=
    _calculate_radius_of_curvature_prime_vertical E sin_latitude
  let latitude_term1 := (northings - FALSE_NORTHING)
    / (SCALE_FACTOR * radius_of_curvature_prime_vertical)
  let latitude_term2 := latitude_term1
    / (SCALE_FACTOR * radius_of_curvature_prime_vertical) ^ 3
    * (-coefficient_a2 / 6
      * (1 - coefficient_a2 ^ 2
        * (5 + 3 * coefficient_a2 + 10 * coefficient_a2 ^ 2
          - 4 * coefficient_a2 ^ 3 - 9 * sin_latitude ^ 2)))
  let latitude_term3 := latitude_term1
    / (SCALE_FACTOR * radius_of_curvature_prime_vertical) ^ 5
    * (-(coefficient_a2 ^ 3) / 120
      * (5 - 18 * coefficient_a2 ^ 2 + coefficient_a2 ^ 4
        + 14 * sin_latitude ^ 2
        - 58 * coefficient_a2 ^ 2 * sin_latitude ^ 2))
  let latitude_term4 := latitude_term1
    / (SCALE_FACTOR * radius_of_curvature_prime_vertical) ^ 7
    * (-(coefficient_a2 ^ 5) / 5040
      * (61 - 479 * coefficient_a2 ^ 2 + 179 * coefficient_a2 ^ 4
        - coefficient_a2 ^ 6))
  ORIGIN_LATITUDE * π / 180 + latitude_term1 + latitude_term2
    + latitude_term3 + latitude_term4

/-- Method `_calculate_latitude_from_northing`: initialises the iterate to the
origin latitude in radians, then runs the loop body once per element of
`range(5)`. -/
def _calculate_latitude_from_northing (E : Engine) (northings : ℝ) : ℝ :=
  (List.range 5).foldl (fun latitude_radians _ =>
    latitude_iteration_step E northings latitude_radians)
    (ORIGIN_LATITUDE * π / 180)

/-- Method `_calculate_longitude_from_easting`. -/
def _calculate_longitude_from_easting (E : Engine)
    (eastings latitude_radians : ℝ) : ℝ :=
  let coefficient_a2 := E.equatorial_arc_consts.a2
  let sec_latitude := 1.0 / Real.cos latitude_radians
  let tangent_latitude := Real.tan latitude_radians
  let tangent_squared_latitude := tangent_latitude * tangent_latitude
  let longitude_term1 := eastings / (SCALE_FACTOR
    * _calculate_radius_of_curvature E (Real.sin latitude_radians)
    * sec_latitude)
  let longitude_term2 := longitude_term1
    / (SCALE_FACTOR
      * _calculate_radius_of_curvature E (Real.sin latitude_radians)
      * sec_latitude) ^ 3
    * (coefficient_a2 / 2 * tangent_squared_latitude)
  let longitude_term3 := longitude_term1
    / (SCALE_FACTOR
      * _calculate_radius_of_curvature E (Real.sin latitude_radians)
      * sec_latitude) ^ 5
    * (coefficient_a2 / 24 * tangent_squared_latitude
      * (5 - tangent_squared_latitude + 9 * coefficient_a2
        + 4 * coefficient_a2 ^ 2))
  let longitude_term4 := longitude_term1
    / (SCALE_FACTOR
      * _calculate_radius_of_curvature E (Real.sin latitude_radians)
      * sec_latitude) ^ 7
    * (coefficient_a2 / 720 * tangent_squared_latitude
      * (61 + 90 * tangent_squared_latitude
        + 45 * tangent_squared_latitude ^ 2))
  degrees_to_radians ORIGIN_LONGITUDE + longitude_term1 + longitude_term2
    + longitude_term3 + longitude_term4

/-- Method `convert_svy21_to_lat_lon` (the inverse transform). -/
def convert_svy21_to_lat_lon (E : Engine) (northings eastings : ℝ) :
    DegreeCoordinates :=
  let latitude_radians := _calculate_latitude_from_northing E northings
  let longitude_radians :=
    _calculate_longitude_from_easting E eastings latitude_radians
  { latitude := radians_to_degrees latitude_radians
    longitude := radians_to_degrees longitude_radians }

/-- State-passing rendering of a `convert_lat_lon_to_svy21` call: the engine
instance is the state; the method body only reads attributes, never assigns. -/
def convert_lat_lon_to_svy21_state (latitude longitude : ℝ) :
    StateM Engine SVY21Coordinates := do
  let E ← get
  pure (convert_lat_lon_to_svy21 E latitude longitude)

/-- State-passing rendering of a `convert_svy21_to_lat_lon` call: the engine
instance is the state; the method body only reads attributes, never assigns. -/
def convert_svy21_to_lat_lon_state (northings eastings : ℝ) :
    StateM Engine DegreeCoordinates := do
  let E ← get
  pure (convert_svy21_to_lat_lon E northings eastings)

end

/-! ## Numeric bounds on the cached constants and on the trigonometric
quantities appearing in the transforms -/

open Real

theorem sin_le_self_of_nonneg {x : ℝ} (hx : 0 ≤ x) : Real.sin x ≤ x := by
  rcases hx.eq_or_lt with h | h
  · simp [← h]
  · exact (Real.sin_lt h).le

theorem ecc_lb : 0.00669 < Engine.init.eccentricity_squared := by
  simp only [Engine.init, _calculate_eccentricity_squared, FLATTENING]
  norm_num

theorem ecc_ub : Engine.init.eccentricity_squared < 0.0067 := by
  simp only [Engine.init, _calculate_eccentricity_squared, FLATTENING]
  norm_num

theorem a1_lb : 0.998 < Engine.init.equatorial_arc_consts.a1 := by
  simp only [Engine.init, _calculate_eccentricity_squared,
    _calculate_equatorial_arc_consts, FLATTENING]
  norm_num

theorem a2_lb : 0.0025 < Engine.init.equatorial_arc_consts.a2 := by
  simp only [Engine.init, _calculate_eccentricity_squared,
    _calculate_equatorial_arc_consts, FLATTENING]
  norm_num

theorem a2_ub : Engine.init.equatorial_arc_consts.a2 < 0.0026 := by
  simp only [Engine.init, _calculate_eccentricity_squared,
    _calculate_equatorial_arc_consts, FLATTENING]
  norm_num

theorem a3_lb : 0 < Engine.init.equatorial_arc_consts.a3 := by
  simp only [Engine.init, _calculate_eccentricity_squared,
    _calculate_equatorial_arc_consts, FLATTENING]
  norm_num

theorem a3_ub : Engine.init.equatorial_arc_consts.a3 < 0.00001 := by
  simp only [Engine.init, _calculate_eccentricity_squared,
    _calculate_equatorial_arc_consts, FLATTENING]
  norm_num

theorem a4_lb : 0 < Engine.init.equatorial_arc_consts.a4 := by
  simp only [Engine.init, _calculate_eccentricity_squared,
    _calculate_equatorial_arc_consts, FLATTENING]
  norm_num

theorem a4_ub : Engine.init.equatorial_arc_consts.a4 < 0.00000001 := by
  simp only [Engine.init, _calculate_eccentricity_squared,
    _calculate_equatorial_arc_consts, FLATTENING]
  norm_num

theorem phi0_pos : 0 < ORIGIN_LATITUDE * π / 180 := by
  simp only [ORIGIN_LATITUDE]
  positivity

theorem phi0_ub : ORIGIN_LATITUDE * π / 180 < 0.0239 := by
  simp only [ORIGIN_LATITUDE]
  nlinarith [pi_lt_d6]

theorem phi0_lt_pi : ORIGIN_LATITUDE * π / 180 < π := by
  nlinarith [phi0_ub, pi_gt_d6]

theorem s0_pos : 0 < Real.sin (ORIGIN_LATITUDE * π / 180) :=
  Real.sin_pos_of_pos_of_lt_pi phi0_pos phi0_lt_pi

theorem s0_ub : Real.sin (ORIGIN_LATITUDE * π / 180) < 0.0239 :=
  (Real.sin_lt phi0_pos).trans phi0_ub

theorem c0_lb : 0.9997 ≤ Real.cos (ORIGIN_LATITUDE * π / 180) := by
  have h := Real.one_sub_sq_div_two_le_cos (x := ORIGIN_LATITUDE * π / 180)
  nlinarith [phi0_pos, phi0_ub]

theorem c0_pos : 0 < Real.cos (ORIGIN_LATITUDE * π / 180) :=
  lt_of_lt_of_le (by norm_num) c0_lb

theorem ss0_nonneg : 0 ≤ Real.sin (Real.sin (ORIGIN_LATITUDE * π / 180)) :=
  Real.sin_nonneg_of_nonneg_of_le_pi s0_pos.le
    (by nlinarith [s0_ub, pi_gt_d6])

theorem ss0_ub : Real.sin (Real.sin (ORIGIN_LATITUDE * π / 180)) < 0.0239 :=
  lt_of_le_of_lt (sin_le_self_of_nonneg s0_pos.le) s0_ub

theorem tan0_nonneg : 0 ≤ Real.tan (ORIGIN_LATITUDE * π / 180) := by
  rw [Real.tan_eq_sin_div_cos]
  exact div_nonneg s0_pos.le c0_pos.le

theorem tan0_sq_ub :
    Real.tan (ORIGIN_LATITUDE * π / 180)
      * Real.tan (ORIGIN_LATITUDE * π / 180) ≤ 0.0006 := by
  have h : Real.tan (ORIGIN_LATITUDE * π / 180) ≤ 0.024 := by
    rw [Real.tan_eq_sin_div_cos, div_le_iff₀ c0_pos]
    nlinarith [s0_ub, c0_lb]
  nlinarith [tan0_nonneg]

theorem rho0_pos :
    0 < _calculate_radius_of_curvature Engine.init
      (Real.sin (ORIGIN_LATITUDE * π / 180)) := by
  simp only [_calculate_radius_of_curvature]
  have hu : 0 < 1 - Engine.init.eccentricity_squared
      * Real.sin (Real.sin (ORIGIN_LATITUDE * π / 180)) := by
    nlinarith [ecc_lb, ecc_ub, ss0_nonneg, ss0_ub]
  have hden := Real.rpow_pos_of_pos hu ((3.0 : ℝ) / 2.0)
  have hnum : 0 < SEMI_MAJOR_AXIS * (1 - Engine.init.eccentricity_squared) := by
    simp only [SEMI_MAJOR_AXIS]
    nlinarith [ecc_lb, ecc_ub]
  positivity

theorem rho0_ub :
    _calculate_radius_of_curvature Engine.init
      (Real.sin (ORIGIN_LATITUDE * π / 180)) < 6340000 := by
  simp only [_calculate_radius_of_curvature]
  have hu_lb : (0.9998 : ℝ) < 1 - Engine.init.eccentricity_squared
      * Real.sin (Real.sin (ORIGIN_LATITUDE * π / 180)) := by
    nlinarith [ecc_lb, ecc_ub, ss0_nonneg, ss0_ub]
  have hu_pos : (0 : ℝ) < 1 - Engine.init.eccentricity_squared
      * Real.sin (Real.sin (ORIGIN_LATITUDE * π / 180)) := by linarith
  have hu_ub : 1 - Engine.init.eccentricity_squared
      * Real.sin (Real.sin (ORIGIN_LATITUDE * π / 180)) ≤ 1 := by
    nlinarith [ecc_lb, ecc_ub, ss0_nonneg]
  have hsq : (1 - Engine.init.eccentricity_squared
        * Real.sin (Real.sin (ORIGIN_LATITUDE * π / 180))) ^ (2 : ℝ)
      ≤ (1 - Engine.init.eccentricity_squared
        * Real.sin (Real.sin (ORIGIN_LATITUDE * π / 180))) ^ ((3.0 : ℝ) / 2.0) :=
    Real.rpow_le_rpow_of_exponent_ge hu_pos hu_ub (by norm_num)
  have hsq' : (1 - Engine.init.eccentricity_squared
        * Real.sin (Real.sin (ORIGIN_LATITUDE * π / 180))) ^ (2 : ℝ)
      = (1 - Engine.init.eccentricity_squared
        * Real.sin (Real.sin (ORIGIN_LATITUDE * π / 180))) ^ (2 : ℕ) := by
    rw [← Real.rpow_natCast]
    norm_num
  have hden_lb : (0.9996 : ℝ) < (1 - Engine.init.eccentricity_squared
      * Real.sin (Real.sin (ORIGIN_LATITUDE * π / 180))) ^ ((3.0 : ℝ) / 2.0) := by
    rw [hsq'] at hsq
    nlinarith
  have hden_pos : (0 : ℝ) < (1 - Engine.init.eccentricity_squared
      * Real.sin (Real.sin (ORIGIN_LATITUDE * π / 180))) ^ ((3.0 : ℝ) / 2.0) := by
    linarith
  rw [div_lt_iff₀ hden_pos]
  have hnum_ub : SEMI_MAJOR_AXIS * (1 - Engine.init.eccentricity_squared)
      < 6335470 := by
    simp only [SEMI_MAJOR_AXIS]
    nlinarith [ecc_lb]
  nlinarith

theorem lat_step_fixed_at_false_northing (latitude_radians : ℝ) :
    latitude_iteration_step Engine.init FALSE_NORTHING latitude_radians =
      ORIGIN_LATITUDE * π / 180 := by
  simp [latitude_iteration_step, sub_self, zero_div, zero_mul, add_zero]

theorem lat_from_northing_at_false_northing :
    _calculate_latitude_from_northing Engine.init FALSE_NORTHING =
      ORIGIN_LATITUDE * π / 180 := by
  simp [_calculate_latitude_from_northing, List.range_succ,
    lat_step_fixed_at_false_northing]

theorem longitude_at_origin_lb :
    104 * π / 180 <
      _calculate_longitude_from_easting Engine.init FALSE_EASTING
        (ORIGIN_LATITUDE * π / 180) := by
  have hρ_pos := rho0_pos
  have hρ_ub := rho0_ub
  have hc_lb := c0_lb
  have hc_pos := c0_pos
  have hc_ub : Real.cos (ORIGIN_LATITUDE * π / 180) ≤ 1 := Real.cos_le_one _
  have ht2_nonneg : 0 ≤ Real.tan (ORIGIN_LATITUDE * π / 180)
      * Real.tan (ORIGIN_LATITUDE * π / 180) :=
    mul_self_nonneg _
  have ht2_ub := tan0_sq_ub
  have ha2l := a2_lb
  have ha2u := a2_ub
  simp only [_calculate_longitude_from_easting, SCALE_FACTOR,
    degrees_to_radians, ORIGIN_LONGITUDE, FALSE_EASTING]
  set c := Real.cos (ORIGIN_LATITUDE * π / 180) with hc
  set ρ := _calculate_radius_of_curvature Engine.init
    (Real.sin (ORIGIN_LATITUDE * π / 180)) with hρ
  set t := Real.tan (ORIGIN_LATITUDE * π / 180) with ht
  set A2 := Engine.init.equatorial_arc_consts.a2 with hA2
  set B := 1.0 * ρ * (1.0 / c) with hB
  have hB_pos : 0 < B := by
    rw [hB]
    positivity
  have hB_ub : B < 6343000 := by
    rw [hB]
    have : (1.0 : ℝ) * ρ * (1.0 / c) = ρ / c := by ring
    rw [this, div_lt_iff₀ hc_pos]
    nlinarith
  have hT1_pos : (0 : ℝ) < 28001.642 / B := by positivity
  have hT1_lb : (0.00441 : ℝ) < 28001.642 / B := by
    rw [lt_div_iff₀ hB_pos]
    nlinarith
  have hA2_nonneg : (0 : ℝ) ≤ A2 := by linarith
  have hT2 : (0 : ℝ) ≤ 28001.642 / B / B ^ 3 * (A2 / 2 * (t * t)) := by
    apply mul_nonneg (div_nonneg hT1_pos.le (by positivity))
    exact mul_nonneg (by linarith) ht2_nonneg
  have hbr3 : (0 : ℝ) ≤ 5 - t * t + 9 * A2 + 4 * A2 ^ 2 := by nlinarith
  have hT3 : (0 : ℝ) ≤ 28001.642 / B / B ^ 5
      * (A2 / 24 * (t * t) * (5 - t * t + 9 * A2 + 4 * A2 ^ 2)) := by
    apply mul_nonneg (div_nonneg hT1_pos.le (by positivity))
    exact mul_nonneg (mul_nonneg (by linarith) ht2_nonneg) hbr3
  have hbr4 : (0 : ℝ) ≤ 61 + 90 * (t * t) + 45 * (t * t) ^ 2 := by nlinarith
  have hT4 : (0 : ℝ) ≤ 28001.642 / B / B ^ 7
      * (A2 / 720 * (t * t) * (61 + 90 * (t * t) + 45 * (t * t) ^ 2)) := by
    apply mul_nonneg (div_nonneg hT1_pos.le (by positivity))
    exact mul_nonneg (mul_nonneg (by linarith) ht2_nonneg) hbr4
  have hπ := pi_lt_d6
  linarith

theorem inverse_false_origin_latitude :
    (convert_svy21_to_lat_lon Engine.init FALSE_NORTHING
      FALSE_EASTING).latitude = 1.366666 := by
  simp only [convert_svy21_to_lat_lon, lat_from_northing_at_false_northing,
    radians_to_degrees, ORIGIN_LATITUDE]
  field_simp

theorem inverse_false_origin_longitude :
    104 < (convert_svy21_to_lat_lon Engine.init FALSE_NORTHING
      FALSE_EASTING).longitude := by
  have key := longitude_at_origin_lb
  simp only [convert_svy21_to_lat_lon, lat_from_northing_at_false_northing,
    radians_to_degrees]
  rw [lt_div_iff₀ pi_pos]
  linarith

theorem geom_sum2_nonneg (x1 x2 : ℝ) : 0 ≤ x1 ^ 2 + x1 * x2 + x2 ^ 2 := by
  nlinarith [sq_nonneg (x1 + x2), sq_nonneg x1, sq_nonneg x2]

theorem geom_sum4_nonneg (x1 x2 : ℝ) :
    0 ≤ x1 ^ 4 + x1 ^ 3 * x2 + x1 ^ 2 * x2 ^ 2 + x1 * x2 ^ 3 + x2 ^ 4 := by
  nlinarith [sq_nonneg (x1 ^ 2 + x1 * x2), sq_nonneg (x2 ^ 2 + x1 * x2),
    sq_nonneg (x1 ^ 2), sq_nonneg (x2 ^ 2)]

theorem geom_sum6_nonneg (x1 x2 : ℝ) :
    0 ≤ x1 ^ 6 + x1 ^ 5 * x2 + x1 ^ 4 * x2 ^ 2 + x1 ^ 3 * x2 ^ 3
      + x1 ^ 2 * x2 ^ 4 + x1 * x2 ^ 5 + x2 ^ 6 := by
  nlinarith [sq_nonneg (x1 ^ 3 + x1 ^ 2 * x2), sq_nonneg (x2 ^ 3 + x1 * x2 ^ 2),
    sq_nonneg (x1 ^ 2 * x2 + x1 * x2 ^ 2), sq_nonneg (x1 ^ 3), sq_nonneg (x2 ^ 3)]

theorem easting_bracket_pos (A2 s c x1 x2 : ℝ)
    (hA2l : 0.0025 < A2) (hA2u : A2 < 0.0026)
    (hs : 0 ≤ s) (hsu : s ≤ 0.028)
    (hcl : 0.9996 ≤ c) (hcu : c ≤ 1) :
    0 < 1 + c * (A2 - s ^ 2) / 6 * (x1 ^ 2 + x1 * x2 + x2 ^ 2)
      + c ^ 4 * (4 * A2 ^ 3 * (1 - 6 * (s * s)) + A2 ^ 2 * (1 + 8 * (s * s))
          - A2 * 2 * (s * s) + c ^ 4) / 120
        * (x1 ^ 4 + x1 ^ 3 * x2 + x1 ^ 2 * x2 ^ 2 + x1 * x2 ^ 3 + x2 ^ 4)
      + c ^ 6 * (61 - 479 * (s * s) + 179 * c ^ 4 - c ^ 6) / 5040
        * (x1 ^ 6 + x1 ^ 5 * x2 + x1 ^ 4 * x2 ^ 2 + x1 ^ 3 * x2 ^ 3
          + x1 ^ 2 * x2 ^ 4 + x1 * x2 ^ 5 + x2 ^ 6) := by
  have hs2 : s * s ≤ 0.000784 := by nlinarith
  have hc0 : (0 : ℝ) ≤ c := by linarith
  have hc2 : (0.9992 : ℝ) ≤ c ^ 2 := by nlinarith
  have hc4 : (0.9984 : ℝ) ≤ c ^ 4 := by nlinarith [sq_nonneg (c ^ 2 - 0.9992)]
  have hc4u : c ^ 4 ≤ 1 := pow_le_one₀ hc0 hcu
  have hc6u : c ^ 6 ≤ 1 := pow_le_one₀ hc0 hcu
  have hc6l : (0 : ℝ) ≤ c ^ 6 := pow_nonneg hc0 6
  have hP1 : 0 ≤ c * (A2 - s ^ 2) / 6 := by
    apply div_nonneg _ (by norm_num)
    apply mul_nonneg hc0
    nlinarith
  have hA2s2 : A2 * (s * s) ≤ 0.0026 * 0.000784 :=
    mul_le_mul hA2u.le hs2 (mul_self_nonneg s) (by norm_num)
  have h4A2 : 0 ≤ 4 * A2 ^ 3 * (1 - 6 * (s * s)) := by
    apply mul_nonneg _ (by nlinarith)
    nlinarith [pow_pos (lt_trans (by norm_num) hA2l) 3]
  have hA2sq : 0 ≤ A2 ^ 2 * (1 + 8 * (s * s)) := by
    apply mul_nonneg (sq_nonneg A2)
    nlinarith [mul_self_nonneg s]
  have hP2 : 0 ≤ c ^ 4 * (4 * A2 ^ 3 * (1 - 6 * (s * s))
      + A2 ^ 2 * (1 + 8 * (s * s)) - A2 * 2 * (s * s) + c ^ 4) / 120 := by
    apply div_nonneg _ (by norm_num)
    apply mul_nonneg (by nlinarith)
    nlinarith
  have hP3 : 0 ≤ c ^ 6 * (61 - 479 * (s * s) + 179 * c ^ 4 - c ^ 6) / 5040 := by
    apply div_nonneg _ (by norm_num)
    apply mul_nonneg hc6l
    nlinarith [pow_nonneg hc0 4]
  have t1 := mul_nonneg hP1 (geom_sum2_nonneg x1 x2)
  have t2 := mul_nonneg hP2 (geom_sum4_nonneg x1 x2)
  have t3 := mul_nonneg hP3 (geom_sum6_nonneg x1 x2)
  linarith

theorem meridian_distance_pos (lat : ℝ) (h1 : 1 ≤ lat) (_h2 : lat ≤ 1.6) :
    0 < _calculate_meridian_distance Engine.init (lat * π / 180) := by
  have hφl : (0.0174 : ℝ) < lat * π / 180 := by
    nlinarith [pi_gt_d6, mul_nonneg (sub_nonneg.mpr h1) Real.pi_pos.le]
  have hsin2 := Real.sin_le_one (2 * (lat * π / 180))
  have hsin4 := Real.neg_one_le_sin (4 * (lat * π / 180))
  have hsin6 := Real.sin_le_one (6 * (lat * π / 180))
  have ha1 := a1_lb
  have ha2p := a2_lb
  have ha2 := a2_ub
  have ha3p := a3_lb
  have ha3 := a3_ub
  have ha4p := a4_lb
  have ha4 := a4_ub
  simp only [_calculate_meridian_distance, SEMI_MAJOR_AXIS]
  have key : (0.998 : ℝ) * 0.0174 <
      Engine.init.equatorial_arc_consts.a1 * (lat * π / 180) := by
    nlinarith
  have hb2 : Engine.init.equatorial_arc_consts.a2
      * Real.sin (2 * (lat * π / 180)) ≤ 0.0026 := by
    nlinarith
  have hb4 : -(0.00001 : ℝ) ≤ Engine.init.equatorial_arc_consts.a3
      * Real.sin (4 * (lat * π / 180)) := by
    nlinarith
  have hb6 : Engine.init.equatorial_arc_consts.a4
      * Real.sin (6 * (lat * π / 180)) ≤ 0.00000001 := by
    nlinarith
  nlinarith

theorem forward_origin_eval :
    convert_lat_lon_to_svy21 Engine.init 1.366666 103.833333 =
      ⟨FALSE_NORTHING, FALSE_EASTING⟩ := by
  simp only [convert_lat_lon_to_svy21, _compute_northing, _compute_easting,
    ORIGIN_LATITUDE, ORIGIN_LONGITUDE, SCALE_FACTOR,
    SVY21Coordinates.mk.injEq]
  constructor <;> ring

/-! ## Theorems settling the specification claims -/

/-- C4: the forward transform at the projection origin
`(1.366666, 103.833333)` returns exactly the pair
`(FALSE_NORTHING, FALSE_EASTING) = (38744.572, 28001.642)`: in exact real
arithmetic every series term vanishes because `Δλ = 0` and
`M(lat) = M(originLat)`, so the claimed floating-point tolerance is met with
equality. -/
theorem forward_transform_fixes_origin :
    convert_lat_lon_to_svy21 Engine.init 1.366666 103.833333 =
      ⟨FALSE_NORTHING, FALSE_EASTING⟩ :=
  forward_origin_eval

/-- C5: construction takes no input and caches the derived constants with
exactly the values demanded by the specification formulas: `b = a(1-f)`,
`e² = 2f - f²`, `A1 = 1 - e²/4 - 3e⁴/64 - 5e⁶/256`,
`A2 = (3/8)(e² + e⁴/4 + 15e⁶/128)`, `A3 = (15/256)(e⁴ + 3e⁶/4)`,
`A4 = 35e⁶/3072` where `e⁴ = (e²)²` and `e⁶ = (e²)³`. -/
theorem construction_computes_derived_constants :
    Engine.init.semi_minor_axis = SEMI_MAJOR_AXIS * (1 - FLATTENING) ∧
    Engine.init.eccentricity_squared =
      2 * FLATTENING - FLATTENING ^ 2 ∧
    Engine.init.equatorial_arc_consts.a1 =
      1 - Engine.init.eccentricity_squared / 4
        - 3 * Engine.init.eccentricity_squared ^ 2 / 64
        - 5 * Engine.init.eccentricity_squared ^ 3 / 256 ∧
    Engine.init.equatorial_arc_consts.a2 =
      3 / 8 * (Engine.init.eccentricity_squared
        + Engine.init.eccentricity_squared ^ 2 / 4
        + 15 * Engine.init.eccentricity_squared ^ 3 / 128) ∧
    Engine.init.equatorial_arc_consts.a3 =
      15 / 256 * (Engine.init.eccentricity_squared ^ 2
        + 3 * Engine.init.eccentricity_squared ^ 3 / 4) ∧
    Engine.init.equatorial_arc_consts.a4 =
      35 * Engine.init.eccentricity_squared ^ 3 / 3072 := by
  refine ⟨rfl, ?_, ?_, ?_, ?_, ?_⟩ <;>
    simp only [Engine.init, _calculate_eccentricity_squared,
      _calculate_equatorial_arc_consts] <;> ring

/-- C6: for every northing input, the latitude recovery of the inverse
transform is exactly the 5-fold iterate of the loop body starting from the
origin latitude in radians — a fixed, input-independent iteration count with
no convergence check, so the recovery always terminates after 5 steps. -/
theorem latitude_recovery_is_exactly_five_iterations (northings : ℝ) :
    _calculate_latitude_from_northing Engine.init northings =
      (latitude_iteration_step Engine.init northings)^[5]
        (ORIGIN_LATITUDE * π / 180) := by
  simp [_calculate_latitude_from_northing, List.range_succ,
    Function.iterate_succ_apply']

/-- C9: running either public transform in the state monad over the engine
instance leaves the engine state exactly as it was at construction time: the
method bodies only read the cached attributes. -/
theorem transforms_never_mutate_engine (E : Engine)
    (latitude longitude northings eastings : ℝ) :
    ((convert_lat_lon_to_svy21_state latitude longitude).run E).2 = E ∧
    ((convert_svy21_to_lat_lon_state northings eastings).run E).2 = E :=
  ⟨rfl, rfl⟩

/-- C2: evaluating the inverse transform at the false-northing/false-easting
pair `(38744.572, 28001.642)` does NOT return the projection origin: the
latitude comes back exactly `1.366666` degrees, but the longitude exceeds
`104` degrees (about `104.0866`), far from the claimed `≈ 103.833333`,
because `_calculate_longitude_from_easting` uses the raw easting without
subtracting `FALSE_EASTING`. -/
theorem inverse_transform_at_false_origin :
    (convert_svy21_to_lat_lon Engine.init 38744.572 28001.642).latitude =
        1.366666 ∧
      104 < (convert_svy21_to_lat_lon Engine.init 38744.572
        28001.642).longitude := by
  have h1 := inverse_false_origin_latitude
  have h2 := inverse_false_origin_longitude
  simp only [FALSE_NORTHING, FALSE_EASTING] at h1 h2
  exact ⟨h1, h2⟩

/-- C1: the round-trip property fails inside the claimed box: at
`(lat, lon) = (1.366666, 103.833333)` (with `lat ∈ [1.0, 1.6]` and
`lon ∈ [103.6, 104.1]`) the forward transform returns exactly
`(FALSE_NORTHING, FALSE_EASTING)`, yet applying the inverse transform to that
result yields a longitude above `104` degrees, more than `1e-6` away from
`103.833333` (the inverse never subtracts the false easting). -/
theorem roundtrip_fails_inside_claimed_range :
    (1 : ℝ) ≤ 1.366666 ∧ (1.366666 : ℝ) ≤ 1.6 ∧
    (103.6 : ℝ) ≤ 103.833333 ∧ (103.833333 : ℝ) ≤ 104.1 ∧
    1e-6 < |(convert_svy21_to_lat_lon Engine.init
        (convert_lat_lon_to_svy21 Engine.init 1.366666 103.833333).northing
        (convert_lat_lon_to_svy21 Engine.init 1.366666
          103.833333).easting).longitude - 103.833333| := by
  refine ⟨by norm_num, by norm_num, by norm_num, by norm_num, ?_⟩
  rw [forward_origin_eval]
  have h2 : (104 : ℝ) < (convert_svy21_to_lat_lon Engine.init
      (({ northing := FALSE_NORTHING, easting := FALSE_EASTING } :
        SVY21Coordinates)).northing
      (({ northing := FALSE_NORTHING, easting := FALSE_EASTING } :
        SVY21Coordinates)).easting).longitude :=
    inverse_false_origin_longitude
  have h3 := le_abs_self ((convert_svy21_to_lat_lon Engine.init
      (({ northing := FALSE_NORTHING, easting := FALSE_EASTING } :
        SVY21Coordinates)).northing
      (({ northing := FALSE_NORTHING, easting := FALSE_EASTING } :
        SVY21Coordinates)).easting).longitude - 103.833333)
  linarith

/-- C3: the claim is false of the code: in the latitude-recovery iterations
the transverse radius of curvature is computed by feeding `sin φ` — not
`sin²φ` — into `_calculate_radius_of_curvature_prime_vertical`, so already at
the first iterate `φ = originLatitudeRad` the value used differs from the
specified `ν(φ) = a/√(1 − e²·sin²φ)` (captured by `nu_spec`). -/
theorem radius_prime_vertical_diverges_from_spec :
    _calculate_radius_of_curvature_prime_vertical Engine.init
        (Real.sin (ORIGIN_LATITUDE * π / 180)) ≠
      nu_spec (ORIGIN_LATITUDE * π / 180) := by
  simp only [_calculate_radius_of_curvature_prime_vertical, nu_spec]
  have hs_pos := s0_pos
  have hs_ub := s0_ub
  have he_lb := ecc_lb
  have he_ub := ecc_ub
  set s := Real.sin (ORIGIN_LATITUDE * π / 180) with hs
  set e := Engine.init.eccentricity_squared with he
  have h1 : (0 : ℝ) < 1 - e * s := by nlinarith
  have h2 : 1 - e * s < 1 - e * s ^ 2 := by nlinarith
  have hsq := Real.sqrt_lt_sqrt h1.le h2
  have hsqrt1_pos : 0 < Real.sqrt (1 - e * s) := Real.sqrt_pos.mpr h1
  have ha : (0 : ℝ) < SEMI_MAJOR_AXIS := by
    simp only [SEMI_MAJOR_AXIS]
    norm_num
  have hlt : SEMI_MAJOR_AXIS / Real.sqrt (1 - e * s ^ 2)
      < SEMI_MAJOR_AXIS / Real.sqrt (1 - e * s) := by
    gcongr
  exact fun hEq => absurd hEq (ne_of_gt (by linarith))

/-- C8: for a fixed latitude in [1.0, 1.6] degrees and longitudes in
Singapore's span [103.6, 104.1], increasing the longitude strictly increases
the easting produced by the forward transform: the easting difference factors
as meridianDistance·cosφ·Δ·(1 + nonnegative series terms). -/
theorem easting_strictly_increases_with_longitude
    (lat lon1 lon2 : ℝ) (h1 : 1 ≤ lat) (h2 : lat ≤ 1.6)
    (h3 : 103.6 ≤ lon1) (h4 : lon2 ≤ 104.1) (h5 : lon1 < lon2) :
    (convert_lat_lon_to_svy21 Engine.init lat lon1).easting <
      (convert_lat_lon_to_svy21 Engine.init lat lon2).easting := by
  have hM := meridian_distance_pos lat h1 h2
  have hφ_pos : 0 < lat * π / 180 := by
    nlinarith [mul_pos (show (0 : ℝ) < lat by linarith) Real.pi_pos]
  have hφ_ub : lat * π / 180 ≤ 0.028 := by
    nlinarith [pi_lt_d6, mul_nonneg (sub_nonneg.mpr h2) Real.pi_pos.le]
  have hφ_le_pi : lat * π / 180 ≤ π := by
    nlinarith [pi_gt_d6]
  have hs_nonneg : 0 ≤ Real.sin (lat * π / 180) :=
    Real.sin_nonneg_of_nonneg_of_le_pi hφ_pos.le hφ_le_pi
  have hs_ub : Real.sin (lat * π / 180) ≤ 0.028 :=
    (sin_le_self_of_nonneg hφ_pos.le).trans hφ_ub
  have hc_ub : Real.cos (lat * π / 180) ≤ 1 := Real.cos_le_one _
  have hc_lb : 0.9996 ≤ Real.cos (lat * π / 180) := by
    have h := Real.one_sub_sq_div_two_le_cos (x := lat * π / 180)
    nlinarith [hφ_pos, hφ_ub]
  have hc_pos : 0 < Real.cos (lat * π / 180) :=
    lt_of_lt_of_le (by norm_num) hc_lb
  have hx : 0 < (lon2 * π / 180 - 103.833333 * π / 180)
      - (lon1 * π / 180 - 103.833333 * π / 180) := by
    nlinarith [mul_pos (sub_pos.mpr h5) Real.pi_pos]
  have hK := easting_bracket_pos Engine.init.equatorial_arc_consts.a2
    (Real.sin (lat * π / 180)) (Real.cos (lat * π / 180))
    (lon1 * π / 180 - 103.833333 * π / 180)
    (lon2 * π / 180 - 103.833333 * π / 180)
    a2_lb a2_ub hs_nonneg hs_ub hc_lb hc_ub
  have hdiff :
      (convert_lat_lon_to_svy21 Engine.init lat lon2).easting
        - (convert_lat_lon_to_svy21 Engine.init lat lon1).easting =
      _calculate_meridian_distance Engine.init (lat * π / 180)
        * Real.cos (lat * π / 180)
        * ((lon2 * π / 180 - 103.833333 * π / 180)
          - (lon1 * π / 180 - 103.833333 * π / 180))
        * (1 + Real.cos (lat * π / 180)
            * (Engine.init.equatorial_arc_consts.a2
              - Real.sin (lat * π / 180) ^ 2) / 6
            * ((lon1 * π / 180 - 103.833333 * π / 180) ^ 2
              + (lon1 * π / 180 - 103.833333 * π / 180)
                * (lon2 * π / 180 - 103.833333 * π / 180)
              + (lon2 * π / 180 - 103.833333 * π / 180) ^ 2)
          + Real.cos (lat * π / 180) ^ 4
              * (4 * Engine.init.equatorial_arc_consts.a2 ^ 3
                  * (1 - 6 * (Real.sin (lat * π / 180)
                    * Real.sin (lat * π / 180)))
                + Engine.init.equatorial_arc_consts.a2 ^ 2
                  * (1 + 8 * (Real.sin (lat * π / 180)
                    * Real.sin (lat * π / 180)))
                - Engine.init.equatorial_arc_consts.a2 * 2
                  * (Real.sin (lat * π / 180) * Real.sin (lat * π / 180))
                + Real.cos (lat * π / 180) ^ 4) / 120
            * ((lon1 * π / 180 - 103.833333 * π / 180) ^ 4
              + (lon1 * π / 180 - 103.833333 * π / 180) ^ 3
                * (lon2 * π / 180 - 103.833333 * π / 180)
              + (lon1 * π / 180 - 103.833333 * π / 180) ^ 2
                * (lon2 * π / 180 - 103.833333 * π / 180) ^ 2
              + (lon1 * π / 180 - 103.833333 * π / 180)
                * (lon2 * π / 180 - 103.833333 * π / 180) ^ 3
              + (lon2 * π / 180 - 103.833333 * π / 180) ^ 4)
          + Real.cos (lat * π / 180) ^ 6
              * (61 - 479 * (Real.sin (lat * π / 180)
                  * Real.sin (lat * π / 180))
                + 179 * Real.cos (lat * π / 180) ^ 4
                - Real.cos (lat * π / 180) ^ 6) / 5040
            * ((lon1 * π / 180 - 103.833333 * π / 180) ^ 6
              + (lon1 * π / 180 - 103.833333 * π / 180) ^ 5
                * (lon2 * π / 180 - 103.833333 * π / 180)
              + (lon1 * π / 180 - 103.833333 * π / 180) ^ 4
                * (lon2 * π / 180 - 103.833333 * π / 180) ^ 2
              + (lon1 * π / 180 - 103.833333 * π / 180) ^ 3
                * (lon2 * π / 180 - 103.833333 * π / 180) ^ 3
              + (lon1 * π / 180 - 103.833333 * π / 180) ^ 2
                * (lon2 * π / 180 - 103.833333 * π / 180) ^ 4
              + (lon1 * π / 180 - 103.833333 * π / 180)
                * (lon2 * π / 180 - 103.833333 * π / 180) ^ 5
              + (lon2 * π / 180 - 103.833333 * π / 180) ^ 6)) := by
    simp only [convert_lat_lon_to_svy21, _compute_easting, degrees_to_radians,
      ORIGIN_LONGITUDE, SCALE_FACTOR]
    ring
  have hpos := mul_pos (mul_pos (mul_pos hM hc_pos) hx) hK
  linarith

/-- Witness for C8: concrete instance with latitude 1.3 degrees and
longitudes 103.7 < 103.9, all inside the claimed ranges. -/
theorem easting_strictly_increases_with_longitude_witness :
    (1 : ℝ) ≤ 1.3 ∧ (1.3 : ℝ) ≤ 1.6 ∧ (103.6 : ℝ) ≤ 103.7 ∧
    (103.9 : ℝ) ≤ 104.1 ∧ (103.7 : ℝ) < 103.9 ∧
    (convert_lat_lon_to_svy21 Engine.init 1.3 103.7).easting <
      (convert_lat_lon_to_svy21 Engine.init 1.3 103.9).easting :=
  ⟨by norm_num, by norm_num, by norm_num, by norm_num, by norm_num,
    easting_strictly_increases_with_longitude 1.3 103.7 103.9 (by norm_num)
      (by norm_num) (by norm_num) (by norm_num) (by norm_num)⟩

/-- C10: the latitude returned by the inverse transform depends only on the
northing argument: for one northing and any two eastings the recovered
latitudes coincide. -/
theorem latitude_ignores_easting (northings eastings1 eastings2 : ℝ) :
    (convert_svy21_to_lat_lon Engine.init northings eastings1).latitude =
      (convert_svy21_to_lat_lon Engine.init northings eastings2).latitude :=
  rfl

end ZcParking
